import Mathlib

/-!
Shallow embedding of `src/app.py` (AI-powered water resource management).

The embedding covers the SQLite-backed usage store (`communities` and
`water_usage` tables, the `add_community` and `add_usage` routes), the
aggregation step `get_data`, and the allocation calculator
`optimize_allocation`.  SQLite integers become `Int`/`Nat`; Python and
pandas floats become exact rationals `ℚ` (every constant in the program —
`1.1`, `0.5`, `1000` — is exactly representable, and the spec asks only for
equality within solver tolerance, which the exact optimum satisfies).
`np.random.randint` draws are modelled by explicit parameters
`rain temp : Nat → Nat` giving the value drawn for each row position.
-/

namespace WaterAlloc

/-- A row of the `communities` table
(`id INTEGER PRIMARY KEY AUTOINCREMENT, name TEXT UNIQUE, population INTEGER`). -/
structure Community where
  id : Nat
  name : String
  population : Int

/-- A row of the `water_usage` table
(`id INTEGER PRIMARY KEY AUTOINCREMENT, community_id INTEGER, date TEXT,
usage INTEGER`, with a declared `FOREIGN KEY(community_id)`). -/
structure UsageRecord where
  id : Nat
  community_id : Nat
  date : String
  usage : Int

/-- The persisted database state: both tables, rows in insertion order. -/
structure Store where
  communities : List Community
  water_usage : List UsageRecord

def emptyStore : Store := ⟨[], []⟩

/-- `AUTOINCREMENT`: the next id is one larger than the largest id present
(both tables are append-only in this program). -/
def nextCommunityId (s : Store) : Nat :=
  s.communities.foldl (fun m c => max m c.id) 0 + 1

def nextUsageId (s : Store) : Nat :=
  s.water_usage.foldl (fun m w => max m w.id) 0 + 1

/-- `POST /add_community` (`app.py` lines 94-103):
`INSERT OR IGNORE INTO communities (name,population) VALUES (?,?)`.
Because `name` is declared `UNIQUE`, the `OR IGNORE` clause turns an insert
with an existing name into a silent no-op. -/
def add_community (s : Store) (name : String) (population : Int) : Store :=
  if s.communities.any (fun c => decide (c.name = name)) then s
  else { s with
         communities := s.communities ++ [⟨nextCommunityId s, name, population⟩] }

/-- `POST /add_usage` (`app.py` lines 105-115):
`INSERT INTO water_usage (community_id,date,usage) VALUES (?,?,?)`.
The schema declares `FOREIGN KEY(community_id) REFERENCES communities(id)`,
but SQLite leaves foreign-key enforcement OFF unless `PRAGMA foreign_keys=ON`
is issued, and this program never issues it; the insert therefore succeeds
for every `community_id`, existing or not. -/
def add_usage (s : Store) (community_id : Nat) (date : String) (usage : Int) :
    Store :=
  { s with
    water_usage := s.water_usage ++ [⟨nextUsageId s, community_id, date, usage⟩] }

/-- The usage values joined to a community by
`LEFT JOIN water_usage w ON com.id = w.community_id`. -/
def usagesFor (s : Store) (cid : Nat) : List Int :=
  (s.water_usage.filter fun w => decide (w.community_id = cid)).map
    (fun w => w.usage)

/-- `IFNULL(AVG(w.usage), 0)`: the mean of the list, `0` when it is empty. -/
def avgUsage (us : List Int) : ℚ :=
  if us.length = 0 then 0 else (us.sum : ℚ) / us.length

/-- One row of the dataframe returned by `get_data`: the SQL aggregate columns
plus the three columns added on lines 50-52 of `app.py`. -/
structure PreRow where
  community_id : Nat
  Community : String
  Population : Int
  Avg_Usage : ℚ
  Current_Supply : ℚ
  Rainfall : Nat
  Temperature : Nat

/-- The row `get_data` builds for community `c` sitting at dataframe index `i`:
`Current_Supply = Avg_Usage * Population * 1.1` (line 50), and the two
pseudo-random columns take the values drawn for position `i`
(lines 51-52). -/
def mkPreRow (s : Store) (rain temp : Nat → Nat) (i : Nat) (c : Community) :
    PreRow :=
  let avg := avgUsage (usagesFor s c.id)
  { community_id := c.id
    Community := c.name
    Population := c.population
    Avg_Usage := avg
    Current_Supply := avg * (c.population : ℚ) * (11 / 10)
    Rainfall := rain i
    Temperature := temp i }

def get_data_rows (s : Store) (rain temp : Nat → Nat) :
    Nat → List Community → List PreRow
  | _, [] => []
  | i, c :: cs => mkPreRow s rain temp i c :: get_data_rows s rain temp (i + 1) cs

/-- `get_data` (`app.py` lines 33-53): one row per community (outer-join
semantics: communities with no usage rows appear with `Avg_Usage = 0`),
in table order, enriched with `Current_Supply`, `Rainfall`, `Temperature`. -/
def get_data (s : Store) (rain temp : Nat → Nat) : List PreRow :=
  get_data_rows s rain temp 0 s.communities

/-- The per-row LP bound of line 74:
`surplus = max(0, row.Current_Supply - row.Predicted_Demand)` where
`Predicted_Demand = Population * Avg_Usage` (line 66). -/
def surplusOf (r : PreRow) : ℚ :=
  max 0 (r.Current_Supply - (r.Population : ℚ) * r.Avg_Usage)

/-- Minimum of a list of rationals, `0` on the empty list. -/
def minOrZero : List ℚ → ℚ
  | [] => 0
  | x :: xs => xs.foldl min x

/-- The exact optimum of the PuLP program of lines 70-76 for the variable
named after community `n`.  PuLP keys one variable `give_n` per distinct
community name (the dict comprehension of line 71 keeps one variable per
name); the constraints of lines 73-75 bound it by the surplus of every row
carrying that name, and the objective of line 72 maximizes a sum in which
each variable occurs with positive coefficient, so at the unique optimum
`give_n` equals the minimum of those surpluses (plain `surplus` when names
are distinct, which the `UNIQUE` column constraint guarantees for data read
from the store).  Line 77 maps a missing or falsy (`0.0`) `varValue` to `0`,
which coincides with this optimum, as the optimum is never negative. -/
def give (rows : List PreRow) (n : String) : ℚ :=
  minOrZero ((rows.filter fun r => decide (r.Community = n)).map surplusOf)

/-- A fully derived allocation row: the `get_data` columns plus the five
columns added by `optimize_allocation`. -/
structure Row where
  community_id : Nat
  Community : String
  Population : Int
  Avg_Usage : ℚ
  Current_Supply : ℚ
  Rainfall : Nat
  Temperature : Nat
  Predicted_Demand : ℚ
  Shortage : Bool
  Optimized_Share : ℚ
  Final_Supply : ℚ
  Payment : ℚ

/-- The empty-data guard branch of `optimize_allocation`
(`app.py` lines 56-63). -/
def guardRow (r : PreRow) : Row :=
  { community_id := r.community_id
    Community := r.Community
    Population := r.Population
    Avg_Usage := r.Avg_Usage
    Current_Supply := r.Current_Supply
    Rainfall := r.Rainfall
    Temperature := r.Temperature
    Predicted_Demand := 0
    Shortage := false
    Optimized_Share := 0
    Final_Supply := r.Current_Supply
    Payment := 0 }

/-- The main branch of `optimize_allocation` (`app.py` lines 65-81) applied
to row `r` of dataframe `rows`: demand prediction (line 66), shortage flag
(line 67), the LP optimum (lines 70-77), `Final_Supply` (line 78) and
`Payment` (line 81). -/
def solveRow (rows : List PreRow) (r : PreRow) : Row :=
  let pd : ℚ := (r.Population : ℚ) * r.Avg_Usage
  let sh : ℚ := give rows r.Community
  { community_id := r.community_id
    Community := r.Community
    Population := r.Population
    Avg_Usage := r.Avg_Usage
    Current_Supply := r.Current_Supply
    Rainfall := r.Rainfall
    Temperature := r.Temperature
    Predicted_Demand := pd
    Shortage := decide (r.Current_Supply < pd)
    Optimized_Share := sh
    Final_Supply := r.Current_Supply - sh
    Payment := (r.Current_Supply - sh) * (0.5 : ℚ) / 1000 }

/-- `optimize_allocation` (`app.py` lines 55-82): the guard of line 56
(`len(df) == 0 or df.Avg_Usage.sum() == 0`) selects the degenerate branch;
otherwise every row is derived through the LP. -/
def optimize_allocation (rows : List PreRow) : List Row :=
  if rows.length = 0 ∨ (rows.map PreRow.Avg_Usage).sum = 0 then
    rows.map guardRow
  else rows.map (solveRow rows)

/-- The allocation view recomputed on every `GET /` and `GET /update_data`:
`get_data` followed by `optimize_allocation` over the current store. -/
def pipeline (s : Store) (rain temp : Nat → Nat) : List Row :=
  optimize_allocation (get_data s rain temp)

/-! ### Concrete inputs used by scenario theorems and witnesses -/

def rainZero : Nat → Nat := fun _ => 0

def tempBase : Nat → Nat := fun _ => 25

/-- Two communities: A (population 10, one usage record of 5) and
B (population 10, one usage record of 20). -/
def c1Store : Store :=
  ⟨[⟨1, "A", 10⟩, ⟨2, "B", 10⟩],
   [⟨1, 1, "2024-01-01", 5⟩, ⟨2, 2, "2024-01-01", 20⟩]⟩

/-- The `get_data` row of scenario community A. -/
def pA : PreRow := ⟨1, "A", 10, 5, 55, 0, 25⟩

/-- The `get_data` row of scenario community B. -/
def pB : PreRow := ⟨2, "B", 10, 20, 220, 0, 25⟩

/-- The allocation row of scenario community A. -/
def rA : Row := ⟨1, "A", 10, 5, 55, 0, 25, 50, false, 5, 50, 1 / 40⟩

/-- The allocation row of scenario community B. -/
def rB : Row := ⟨2, "B", 10, 20, 220, 0, 25, 200, false, 20, 200, 1 / 10⟩

/-! ### Evaluation of the scenario store -/

theorem c1_get_data_eval :
    get_data c1Store rainZero tempBase = [pA, pB] := by
  simp [get_data, c1Store, get_data_rows, mkPreRow, usagesFor, avgUsage,
    rainZero, tempBase, List.filter, pA, pB]
  norm_num

theorem c1_optimize_eval : optimize_allocation [pA, pB] = [rA, rB] := by
  rw [optimize_allocation, if_neg (by simp [pA, pB]; norm_num)]
  simp [solveRow, give, surplusOf, minOrZero, List.filter, pA, pB, rA, rB]
  norm_num

theorem c1_pipeline_eval : pipeline c1Store rainZero tempBase = [rA, rB] := by
  rw [pipeline, c1_get_data_eval, c1_optimize_eval]

/-- C1: for the input consisting of communities A (population 10, avg_usage 5,
current_supply 55, predicted_demand 50) and B (population 10, avg_usage 20,
current_supply 220, predicted_demand 200), the pipeline (`get_data` followed
by `optimize_allocation`) yields optimized_share 5 and final_supply 50 for A,
and optimized_share 20 and final_supply 200 for B (the exact LP optimum). -/
theorem c1_scenario :
    (pipeline c1Store rainZero tempBase).map
        (fun r => (r.Community, r.Optimized_Share, r.Final_Supply)) =
      [("A", 5, 50), ("B", 20, 200)] := by
  rw [c1_pipeline_eval]
  simp [rA, rB]

/-! ### Bounds on the LP optimum -/

theorem foldl_min_le_init (xs : List ℚ) (x : ℚ) : xs.foldl min x ≤ x := by
  induction xs generalizing x with
  | nil => exact le_refl x
  | cons y ys ih => exact le_trans (ih (min x y)) (min_le_left x y)

theorem foldl_min_le_mem {y : ℚ} {xs : List ℚ} (h : y ∈ xs) (x : ℚ) :
    xs.foldl min x ≤ y := by
  induction xs generalizing x with
  | nil => cases h
  | cons z zs ih =>
    rcases List.mem_cons.mp h with rfl | hz
    · exact le_trans (foldl_min_le_init zs (min x y)) (min_le_right x y)
    · exact ih hz (min x z)

theorem le_foldl_min {a x : ℚ} {xs : List ℚ} (hx : a ≤ x)
    (h : ∀ y ∈ xs, a ≤ y) : a ≤ xs.foldl min x := by
  induction xs generalizing x with
  | nil => exact hx
  | cons z zs ih =>
    exact ih (le_min hx (h z (List.mem_cons_self z zs)))
      (fun y hy => h y (List.mem_cons_of_mem z hy))

theorem minOrZero_nonneg {l : List ℚ} (h : ∀ y ∈ l, 0 ≤ y) :
    0 ≤ minOrZero l := by
  cases l with
  | nil => exact le_refl 0
  | cons x xs =>
    exact le_foldl_min (h x (List.mem_cons_self x xs))
      (fun y hy => h y (List.mem_cons_of_mem x hy))

theorem minOrZero_le_mem {y : ℚ} {l : List ℚ} (h : y ∈ l) : minOrZero l ≤ y := by
  cases l with
  | nil => cases h
  | cons x xs =>
    rcases List.mem_cons.mp h with rfl | hy
    · exact foldl_min_le_init xs y
    · exact foldl_min_le_mem hy x

theorem surplusOf_nonneg (r : PreRow) : 0 ≤ surplusOf r := le_max_left 0 _

theorem give_nonneg (rows : List PreRow) (n : String) : 0 ≤ give rows n := by
  apply minOrZero_nonneg
  intro y hy
  rcases List.mem_map.mp hy with ⟨r, _, rfl⟩
  exact surplusOf_nonneg r

/-- Each row's own surplus is one of the constraints on its name's variable,
so the optimum is bounded by it. -/
theorem give_le_surplusOf {rows : List PreRow} {r : PreRow} (h : r ∈ rows) :
    give rows r.Community ≤ surplusOf r := by
  apply minOrZero_le_mem
  exact List.mem_map.mpr ⟨r, List.mem_filter.mpr ⟨h, by simp⟩, rfl⟩

/-! ### Membership characterizations -/

/-- Every output row of `optimize_allocation` is the image of an input row
under one of the two branches. -/
theorem optimize_allocation_mem {rows : List PreRow} {r : Row}
    (h : r ∈ optimize_allocation rows) :
    ∃ p ∈ rows, r = guardRow p ∨ r = solveRow rows p := by
  unfold optimize_allocation at h
  by_cases hg : rows.length = 0 ∨ (rows.map PreRow.Avg_Usage).sum = 0
  · rw [if_pos hg] at h
    rcases List.mem_map.mp h with ⟨p, hp, rfl⟩
    exact ⟨p, hp, Or.inl rfl⟩
  · rw [if_neg hg] at h
    rcases List.mem_map.mp h with ⟨p, hp, rfl⟩
    exact ⟨p, hp, Or.inr rfl⟩

/-- Every row of `get_data` is `mkPreRow` of a stored community. -/
theorem get_data_rows_mem {s : Store} {rain temp : Nat → Nat} {p : PreRow} :
    ∀ {i : Nat} {cs : List Community}, p ∈ get_data_rows s rain temp i cs →
      ∃ c ∈ cs, ∃ j, p = mkPreRow s rain temp j c := by
  intro i cs
  induction cs generalizing i with
  | nil => intro h; cases h
  | cons c cs ih =>
    intro h
    rcases List.mem_cons.mp h with rfl | h
    · exact ⟨c, List.mem_cons_self c cs, i, rfl⟩
    · rcases ih h with ⟨c', hc', j, hj⟩
      exact ⟨c', List.mem_cons_of_mem c hc', j, hj⟩

/-- Conversely, every stored community produces a row of `get_data`. -/
theorem get_data_rows_mem_of {s : Store} {rain temp : Nat → Nat}
    {c : Community} :
    ∀ {i : Nat} {cs : List Community}, c ∈ cs →
      ∃ p ∈ get_data_rows s rain temp i cs, ∃ j, p = mkPreRow s rain temp j c := by
  intro i cs
  induction cs generalizing i with
  | nil => intro h; cases h
  | cons c' cs ih =>
    intro h
    rcases List.mem_cons.mp h with rfl | h
    · exact ⟨mkPreRow s rain temp i c, List.mem_cons_self _ _, i, rfl⟩
    · rcases ih h with ⟨p, hp, j, hj⟩
      exact ⟨p, List.mem_cons_of_mem _ hp, j, hj⟩

/-! ### C2: the empty-data guard -/

/-- C2: whenever the input is empty or its `Avg_Usage` values sum to zero,
every row produced by `optimize_allocation` has `Predicted_Demand = 0`,
`Shortage = false`, `Optimized_Share = 0`, `Final_Supply = Current_Supply`
and `Payment = 0` (and the empty case holds vacuously). -/
theorem c2_empty_guard (rows : List PreRow)
    (h : rows.length = 0 ∨ (rows.map PreRow.Avg_Usage).sum = 0) :
    ∀ r ∈ optimize_allocation rows,
      r.Predicted_Demand = 0 ∧ r.Shortage = false ∧ r.Optimized_Share = 0 ∧
      r.Final_Supply = r.Current_Supply ∧ r.Payment = 0 := by
  intro r hr
  rw [optimize_allocation, if_pos h] at hr
  rcases List.mem_map.mp hr with ⟨p, _, rfl⟩
  exact ⟨rfl, rfl, rfl, rfl, rfl⟩

/-- A community row with no usage history. -/
def zeroPre : PreRow := ⟨1, "A", 10, 0, 0, 0, 25⟩

theorem c2_witness :
    (⟨1, "A", 10, 0, 0, 0, 25, 0, false, 0, 0, 0⟩ : Row).Predicted_Demand = 0 ∧
    (⟨1, "A", 10, 0, 0, 0, 25, 0, false, 0, 0, 0⟩ : Row).Shortage = false ∧
    (⟨1, "A", 10, 0, 0, 0, 25, 0, false, 0, 0, 0⟩ : Row).Optimized_Share = 0 ∧
    (⟨1, "A", 10, 0, 0, 0, 25, 0, false, 0, 0, 0⟩ : Row).Final_Supply =
      (⟨1, "A", 10, 0, 0, 0, 25, 0, false, 0, 0, 0⟩ : Row).Current_Supply ∧
    (⟨1, "A", 10, 0, 0, 0, 25, 0, false, 0, 0, 0⟩ : Row).Payment = 0 :=
  c2_empty_guard [zeroPre] (Or.inr (by simp [zeroPre])) _
    (by rw [optimize_allocation, if_pos (Or.inr (by simp [zeroPre]))]
        exact List.mem_singleton.mpr rfl)

/-! ### C3: feasibility bounds on the optimized share -/

/-- C3: past the empty-data guard, every output row's `Optimized_Share` lies
between `0` and `max 0 (Current_Supply - Predicted_Demand)` — and the exact
optimum satisfies the LP constraint with no tolerance needed. -/
theorem c3_share_bounds (rows : List PreRow)
    (h1 : rows.length ≠ 0)
    (h2 : (rows.map PreRow.Avg_Usage).sum ≠ 0) :
    ∀ r ∈ optimize_allocation rows,
      0 ≤ r.Optimized_Share ∧
      r.Optimized_Share ≤ max 0 (r.Current_Supply - r.Predicted_Demand) := by
  intro r hr
  rw [optimize_allocation, if_neg (by push_neg; exact ⟨h1, h2⟩)] at hr
  rcases List.mem_map.mp hr with ⟨p, hp, rfl⟩
  exact ⟨give_nonneg rows p.Community, give_le_surplusOf hp⟩

theorem c3_witness :
    0 ≤ rA.Optimized_Share ∧
    rA.Optimized_Share ≤ max 0 (rA.Current_Supply - rA.Predicted_Demand) :=
  c3_share_bounds [pA, pB] (by simp)
    (by simp [pA, pB]; norm_num) rA
    (by rw [c1_optimize_eval]; exact List.mem_cons_self rA [rB])

/-! ### C4: the final-supply and payment identities -/

/-- Two communities whose usage averages cancel: A (population 10, one usage
record of 5) and B (population 10, one usage record of -5).  The guard of
line 56 fires on the zero sum even though supplies are nonzero. -/
def c4Store : Store :=
  ⟨[⟨1, "A", 10⟩, ⟨2, "B", 10⟩],
   [⟨1, 1, "2024-01-01", 5⟩, ⟨2, 2, "2024-01-01", -5⟩]⟩

theorem c4_pipeline_eval :
    pipeline c4Store rainZero tempBase =
      [⟨1, "A", 10, 5, 55, 0, 25, 0, false, 0, 55, 0⟩,
       ⟨2, "B", 10, -5, -55, 0, 25, 0, false, 0, -55, 0⟩] := by
  have hg : get_data c4Store rainZero tempBase =
      [⟨1, "A", 10, 5, 55, 0, 25⟩, ⟨2, "B", 10, -5, -55, 0, 25⟩] := by
    simp [get_data, c4Store, get_data_rows, mkPreRow, usagesFor, avgUsage,
      rainZero, tempBase, List.filter]
    norm_num
  rw [pipeline, hg, optimize_allocation, if_pos (Or.inr (by norm_num))]
  simp [guardRow]

/-- C4 counterexample: on `c4Store` the guard branch produces a row with
`Final_Supply = 55` but `Payment = 0 ≠ 55 * 0.5 / 1000`, refuting the claim
that `Payment = Final_Supply * 0.5 / 1000` holds for every input. -/
theorem c4_counterexample :
    ∃ r ∈ pipeline c4Store rainZero tempBase,
      r.Payment ≠ r.Final_Supply * (0.5 : ℚ) / 1000 := by
  refine ⟨⟨1, "A", 10, 5, 55, 0, 25, 0, false, 0, 55, 0⟩, ?_, ?_⟩
  · rw [c4_pipeline_eval]; exact List.mem_cons_self _ _
  · norm_num

/-- C4 amended: every output row satisfies
`Final_Supply = Current_Supply - Optimized_Share`; rows produced by the main
branch also satisfy `Payment = Final_Supply * 0.5 / 1000`, while rows
produced by the empty-data guard branch have `Payment = 0` (which agrees
with the tariff formula only when their `Current_Supply` is zero). -/
theorem c4_amended (rows : List PreRow) :
    ∀ r ∈ optimize_allocation rows,
      r.Final_Supply = r.Current_Supply - r.Optimized_Share ∧
      (¬(rows.length = 0 ∨ (rows.map PreRow.Avg_Usage).sum = 0) →
        r.Payment = r.Final_Supply * (0.5 : ℚ) / 1000) ∧
      ((rows.length = 0 ∨ (rows.map PreRow.Avg_Usage).sum = 0) →
        r.Payment = 0) := by
  intro r hr
  by_cases hg : rows.length = 0 ∨ (rows.map PreRow.Avg_Usage).sum = 0
  · rw [optimize_allocation, if_pos hg] at hr
    rcases List.mem_map.mp hr with ⟨p, _, rfl⟩
    refine ⟨(sub_zero p.Current_Supply).symm, fun hc => absurd hg hc, fun _ => rfl⟩
  · rw [optimize_allocation, if_neg hg] at hr
    rcases List.mem_map.mp hr with ⟨p, _, rfl⟩
    exact ⟨rfl, fun _ => rfl, fun hgg => absurd hgg hg⟩

theorem c4_witness :
    rA.Final_Supply = rA.Current_Supply - rA.Optimized_Share ∧
    (¬(([pA, pB] : List PreRow).length = 0 ∨
        (([pA, pB] : List PreRow).map PreRow.Avg_Usage).sum = 0) →
      rA.Payment = rA.Final_Supply * (0.5 : ℚ) / 1000) ∧
    ((([pA, pB] : List PreRow).length = 0 ∨
        (([pA, pB] : List PreRow).map PreRow.Avg_Usage).sum = 0) →
      rA.Payment = 0) :=
  c4_amended [pA, pB] rA
    (by rw [c1_optimize_eval]; exact List.mem_cons_self rA [rB])

/-! ### C5: the shortage flag -/

/-- One community with population 10 and a single usage record of -5 (the
`usage` column is a plain SQLite INTEGER and the route parses it with
`int(...)`, so negative readings are accepted). -/
def c5Store : Store := ⟨[⟨1, "A", 10⟩], [⟨1, 1, "2024-01-01", -5⟩]⟩

/-- C5 counterexample: with a negative usage reading the pipeline computes
`Current_Supply = -55 < -50 = Predicted_Demand` and the shortage flag is
true, refuting the claim that it is false for every community and every set
of usage records. -/
theorem c5_counterexample :
    (pipeline c5Store rainZero tempBase).map Row.Shortage = [true] := by
  have hg : get_data c5Store rainZero tempBase =
      [⟨1, "A", 10, -5, -55, 0, 25⟩] := by
    simp [get_data, c5Store, get_data_rows, mkPreRow, usagesFor, avgUsage,
      rainZero, tempBase, List.filter]
    norm_num
  rw [pipeline, hg, optimize_allocation, if_neg (by norm_num)]
  simp [solveRow]
  norm_num

/-- C5 amended: whenever every stored community has
`population * avg_usage ≥ 0` (in particular whenever populations and usage
readings are non-negative), every row of the pipeline has a false shortage
flag: `Current_Supply = avg * population * 1.1` can then never be below
`Predicted_Demand = population * avg`. -/
theorem c5_amended (s : Store) (rain temp : Nat → Nat)
    (h : ∀ c ∈ s.communities,
      0 ≤ (c.population : ℚ) * avgUsage (usagesFor s c.id)) :
    ∀ r ∈ pipeline s rain temp, r.Shortage = false := by
  intro r hr
  rcases optimize_allocation_mem hr with ⟨p, hp, rfl | rfl⟩
  · rfl
  · rcases get_data_rows_mem hp with ⟨c, hc, j, rfl⟩
    have hx : 0 ≤ (c.population : ℚ) * avgUsage (usagesFor s c.id) := h c hc
    show decide
      ((mkPreRow s rain temp j c).Current_Supply <
        ((mkPreRow s rain temp j c).Population : ℚ) *
          (mkPreRow s rain temp j c).Avg_Usage) = false
    rw [decide_eq_false_iff_not]
    intro hlt
    rw [mkPreRow] at hlt
    simp only at hlt
    nlinarith [hx, hlt]

theorem c5_witness : rA.Shortage = false :=
  c5_amended c1Store rainZero tempBase
    (by
      intro c hc
      simp only [c1Store, List.mem_cons, List.mem_singleton] at hc
      rcases hc with rfl | rfl | h
      · simp [usagesFor, avgUsage, c1Store, List.filter]
      · simp [usagesFor, avgUsage, c1Store, List.filter]
      · cases h)
    rA (by rw [c1_pipeline_eval]; exact List.mem_cons_self rA [rB])

/-! ### C6: idempotent community insertion -/

/-- C6: inserting a community whose name already exists leaves the store
unchanged (in particular the community count is unchanged), and the
operation is total — no error is raised. -/
theorem c6_duplicate_insert (s : Store) (name : String) (population : Int)
    (h : ∃ c ∈ s.communities, c.name = name) :
    add_community s name population = s := by
  rcases h with ⟨c, hc, hn⟩
  rw [add_community, if_pos]
  exact List.any_eq_true.mpr ⟨c, hc, by simp [hn]⟩

theorem c6_witness : add_community c1Store "A" 99 = c1Store :=
  c6_duplicate_insert c1Store "A" 99
    ⟨⟨1, "A", 10⟩, by simp [c1Store], rfl⟩

/-! ### C7: usage insertion and the unenforced foreign key -/

/-- C7 counterexample: the empty store has no community at all, yet
`add_usage` with `community_id = 1` succeeds and appends a record — the
declared FOREIGN KEY is never enforced because the program never issues
`PRAGMA foreign_keys=ON`, so no `ReferenceError`-like failure occurs. -/
theorem c7_counterexample :
    emptyStore.communities = [] ∧
    (add_usage emptyStore 1 "2024-01-01" 5).water_usage.length = 1 :=
  ⟨rfl, rfl⟩

/-- C7 amended: for every store and every `community_id` — existing or not —
`add_usage` appends exactly one usage record carrying the given fields and
leaves the communities table unchanged; it never fails. -/
theorem c7_amended (s : Store) (cid : Nat) (d : String) (u : Int) :
    (add_usage s cid d u).water_usage =
      s.water_usage ++ [⟨nextUsageId s, cid, d, u⟩] ∧
    (add_usage s cid d u).water_usage.length = s.water_usage.length + 1 ∧
    (add_usage s cid d u).communities = s.communities :=
  ⟨rfl, by simp [add_usage], rfl⟩

/-! ### C9: write-then-read freshness -/

theorem usagesFor_add_usage (s : Store) (cid : Nat) (d : String) (u : Int) :
    usagesFor (add_usage s cid d u) cid = usagesFor s cid ++ [u] := by
  simp [usagesFor, add_usage, List.filter_append]

theorem avgUsage_append (us : List Int) (u : Int) :
    avgUsage (us ++ [u]) =
      ((us.sum : ℚ) + (u : ℚ)) / ((us.length : ℚ) + 1) := by
  rw [avgUsage, if_neg (by simp)]
  have h1 : (((us ++ [u]).sum : Int) : ℚ) = (us.sum : ℚ) + (u : ℚ) := by
    push_cast [List.sum_append]
    simp
  have h2 : (((us ++ [u]).length : Nat) : ℚ) = (us.length : ℚ) + 1 := by
    push_cast [List.length_append]
    simp [add_comm]
  rw [h1, h2]

/-- Every input row yields an output row of `optimize_allocation` with the
same `community_id` and `Avg_Usage` (both branches are per-row maps). -/
theorem optimize_allocation_mem_of {rows : List PreRow} {p : PreRow}
    (hp : p ∈ rows) :
    ∃ r ∈ optimize_allocation rows,
      r.community_id = p.community_id ∧ r.Avg_Usage = p.Avg_Usage := by
  unfold optimize_allocation
  by_cases hg : rows.length = 0 ∨ (rows.map PreRow.Avg_Usage).sum = 0
  · rw [if_pos hg]
    exact ⟨guardRow p, List.mem_map_of_mem guardRow hp, rfl, rfl⟩
  · rw [if_neg hg]
    exact ⟨solveRow rows p, List.mem_map_of_mem (solveRow rows) hp, rfl, rfl⟩

/-- C9: after appending a usage record for a stored community, the very next
pipeline computation contains a row for that community, and every row
carrying its id reports `Avg_Usage` as the mean over the old records plus
the new one — the view is recomputed from the current store with no
caching. -/
theorem c9_round_trip (s : Store) (c : Community) (hc : c ∈ s.communities)
    (d : String) (u : Int) (rain temp : Nat → Nat) :
    (∃ r ∈ pipeline (add_usage s c.id d u) rain temp,
      r.community_id = c.id) ∧
    (∀ r ∈ pipeline (add_usage s c.id d u) rain temp,
      r.community_id = c.id →
      r.Avg_Usage =
        (((usagesFor s c.id).sum : ℚ) + (u : ℚ)) /
          (((usagesFor s c.id).length : ℚ) + 1)) := by
  constructor
  · have hc' : c ∈ (add_usage s c.id d u).communities := hc
    rcases @get_data_rows_mem_of (add_usage s c.id d u) rain temp c 0
        (add_usage s c.id d u).communities hc' with ⟨p, hp, j, rfl⟩
    have hp' : mkPreRow (add_usage s c.id d u) rain temp j c ∈
        get_data (add_usage s c.id d u) rain temp := hp
    rcases optimize_allocation_mem_of hp' with ⟨r, hr, hid, _⟩
    exact ⟨r, hr, hid⟩
  · intro r hr hid
    rcases optimize_allocation_mem hr with ⟨p, hp, rfl | rfl⟩
    · rcases get_data_rows_mem hp with ⟨c', _, j, rfl⟩
      simp only [guardRow, mkPreRow] at hid ⊢
      rw [hid, usagesFor_add_usage, avgUsage_append]
    · rcases get_data_rows_mem hp with ⟨c', _, j, rfl⟩
      simp only [solveRow, mkPreRow] at hid ⊢
      rw [hid, usagesFor_add_usage, avgUsage_append]

/-- One community A (population 10) with a single usage record of 5. -/
def c9Store : Store := ⟨[⟨1, "A", 10⟩], [⟨1, 1, "2024-01-01", 5⟩]⟩

/-- The allocation row of community A after the second usage record (7) is
appended: the average becomes 6. -/
def rC9 : Row := ⟨1, "A", 10, 6, 66, 0, 25, 60, false, 6, 60, 3 / 100⟩

theorem c9_pipeline_eval :
    pipeline (add_usage c9Store 1 "2024-01-02" 7) rainZero tempBase =
      [rC9] := by
  have hg : get_data (add_usage c9Store 1 "2024-01-02" 7) rainZero tempBase =
      [⟨1, "A", 10, 6, 66, 0, 25⟩] := by
    simp [get_data, add_usage, c9Store, nextUsageId, get_data_rows, mkPreRow,
      usagesFor, avgUsage, rainZero, tempBase, List.filter]
    norm_num
  rw [pipeline, hg, optimize_allocation, if_neg (by norm_num)]
  simp [solveRow, give, surplusOf, minOrZero, List.filter, rC9]
  norm_num

theorem c9_witness :
    rC9.Avg_Usage =
      (((usagesFor c9Store 1).sum : ℚ) + ((7 : Int) : ℚ)) /
        (((usagesFor c9Store 1).length : ℚ) + 1) :=
  (c9_round_trip c9Store ⟨1, "A", 10⟩ (by simp [c9Store]) "2024-01-02" 7
      rainZero tempBase).2 rC9
    (by rw [c9_pipeline_eval]; exact List.mem_singleton.mpr rfl) rfl

/-! ### C10: `optimize_allocation` is a per-row enrichment -/

theorem forall2_map_self {α β : Type _} (R : α → β → Prop) (f : α → β)
    (l : List α) (h : ∀ x ∈ l, R x (f x)) : List.Forall₂ R l (l.map f) := by
  induction l with
  | nil => exact List.Forall₂.nil
  | cons x xs ih =>
    exact List.Forall₂.cons (h x (List.mem_cons_self x xs))
      (ih fun y hy => h y (List.mem_cons_of_mem x hy))

/-- C10: `optimize_allocation` preserves the number and order of rows and
carries the seven input columns through unchanged (the `Forall₂` pairing
matches each input row with the output row at the same position). -/
theorem c10_frame (rows : List PreRow) :
    List.Forall₂ (fun p r =>
      r.community_id = p.community_id ∧ r.Community = p.Community ∧
      r.Population = p.Population ∧ r.Avg_Usage = p.Avg_Usage ∧
      r.Current_Supply = p.Current_Supply ∧ r.Rainfall = p.Rainfall ∧
      r.Temperature = p.Temperature) rows (optimize_allocation rows) := by
  unfold optimize_allocation
  by_cases hg : rows.length = 0 ∨ (rows.map PreRow.Avg_Usage).sum = 0
  · rw [if_pos hg]
    exact forall2_map_self _ _ _ fun p _ => ⟨rfl, rfl, rfl, rfl, rfl, rfl, rfl⟩
  · rw [if_neg hg]
    exact forall2_map_self _ _ _ fun p _ => ⟨rfl, rfl, rfl, rfl, rfl, rfl, rfl⟩

/-! ### C8: the pseudo-random columns are display-only noise -/

/-- Agreement on every `get_data` column except the two pseudo-random
ones. -/
def agrees (p q : PreRow) : Prop :=
  p.community_id = q.community_id ∧ p.Community = q.Community ∧
  p.Population = q.Population ∧ p.Avg_Usage = q.Avg_Usage ∧
  p.Current_Supply = q.Current_Supply

/-- Every output column except `Rainfall` and `Temperature`. -/
def coreR (r : Row) :
    Nat × String × Int × ℚ × ℚ × ℚ × Bool × ℚ × ℚ × ℚ :=
  (r.community_id, r.Community, r.Population, r.Avg_Usage, r.Current_Supply,
   r.Predicted_Demand, r.Shortage, r.Optimized_Share, r.Final_Supply,
   r.Payment)

/-- Two runs of `get_data` over the same store agree row by row on every
column except `Rainfall` and `Temperature`. -/
theorem agrees_get_data_rows (s : Store) (r1 t1 r2 t2 : Nat → Nat) :
    ∀ (i : Nat) (cs : List Community),
      List.Forall₂ agrees (get_data_rows s r1 t1 i cs)
        (get_data_rows s r2 t2 i cs) := by
  intro i cs
  induction cs generalizing i with
  | nil => exact List.Forall₂.nil
  | cons c cs ih =>
    exact List.Forall₂.cons ⟨rfl, rfl, rfl, rfl, rfl⟩ (ih (i + 1))

theorem surplus_filter_congr {l1 l2 : List PreRow}
    (h : List.Forall₂ agrees l1 l2) (n : String) :
    (l1.filter fun r => decide (r.Community = n)).map surplusOf =
    (l2.filter fun r => decide (r.Community = n)).map surplusOf := by
  induction h with
  | nil => rfl
  | @cons a b m1 m2 h1 h2 ih =>
    obtain ⟨e1, e2, e3, e4, e5⟩ := h1
    have hs : surplusOf a = surplusOf b := by
      rw [surplusOf, surplusOf, e3, e4, e5]
    simp only [List.filter_cons, e2]
    by_cases hn : b.Community = n
    · simp [hn, hs, ih]
    · simp [hn, ih]

theorem give_congr {l1 l2 : List PreRow} (h : List.Forall₂ agrees l1 l2)
    (n : String) : give l1 n = give l2 n := by
  rw [give, give, surplus_filter_congr h n]

theorem avg_sum_congr {l1 l2 : List PreRow}
    (h : List.Forall₂ agrees l1 l2) :
    (l1.map PreRow.Avg_Usage).sum = (l2.map PreRow.Avg_Usage).sum := by
  induction h with
  | nil => rfl
  | @cons a b m1 m2 h1 h2 ih =>
    simp only [List.map_cons, List.sum_cons]
    rw [h1.2.2.2.1, ih]

theorem guard_coreR_congr {l1 l2 : List PreRow}
    (h : List.Forall₂ agrees l1 l2) :
    (l1.map guardRow).map coreR = (l2.map guardRow).map coreR := by
  induction h with
  | nil => rfl
  | @cons a b m1 m2 h1 h2 ih =>
    obtain ⟨e1, e2, e3, e4, e5⟩ := h1
    simp only [List.map_cons]
    rw [ih]
    congr 1
    simp [coreR, guardRow, e1, e2, e3, e4, e5]

theorem solve_coreR_congr {L1 L2 : List PreRow}
    (hFull : List.Forall₂ agrees L1 L2) :
    ∀ {l1 l2 : List PreRow}, List.Forall₂ agrees l1 l2 →
      (l1.map (solveRow L1)).map coreR = (l2.map (solveRow L2)).map coreR := by
  intro l1 l2 h
  induction h with
  | nil => rfl
  | @cons a b m1 m2 h1 h2 ih =>
    obtain ⟨e1, e2, e3, e4, e5⟩ := h1
    have hgv : give L1 b.Community = give L2 b.Community :=
      give_congr hFull b.Community
    simp only [List.map_cons]
    rw [ih]
    congr 1
    simp [coreR, solveRow, e1, e2, e3, e4, e5, hgv]

/-- Both branches of `optimize_allocation` act identically on the
non-random columns of two agreeing inputs. -/
theorem optimize_coreR_congr {l1 l2 : List PreRow}
    (h : List.Forall₂ agrees l1 l2) :
    (optimize_allocation l1).map coreR = (optimize_allocation l2).map coreR := by
  have hsum := avg_sum_congr h
  have hlen := h.length_eq
  unfold optimize_allocation
  by_cases hg : l1.length = 0 ∨ (l1.map PreRow.Avg_Usage).sum = 0
  · rw [if_pos hg, if_pos (by rw [← hlen, ← hsum]; exact hg)]
    exact guard_coreR_congr h
  · rw [if_neg hg, if_neg (by rw [← hlen, ← hsum]; exact hg)]
    exact solve_coreR_congr h h

/-- C8: the `Rainfall` and `Temperature` columns take the drawn integers,
which `np.random.randint(0,20)` and `np.random.randint(25,35)` keep inside
`[0,20)` and `[25,35)`; and two pipeline runs over the same store that
differ only in the values drawn produce identical outputs in every other
column — the noise columns influence no downstream computation. -/
theorem c8_noise (s : Store) (rain1 temp1 rain2 temp2 : Nat → Nat)
    (hr : ∀ i, rain1 i < 20) (ht : ∀ i, 25 ≤ temp1 i ∧ temp1 i < 35) :
    (∀ r ∈ pipeline s rain1 temp1,
      r.Rainfall < 20 ∧ 25 ≤ r.Temperature ∧ r.Temperature < 35) ∧
    (pipeline s rain1 temp1).map coreR =
      (pipeline s rain2 temp2).map coreR := by
  constructor
  · intro r hrm
    rcases optimize_allocation_mem hrm with ⟨p, hp, hcase⟩
    rcases get_data_rows_mem hp with ⟨c, _, j, rfl⟩
    rcases hcase with rfl | rfl
    · exact ⟨hr j, (ht j).1, (ht j).2⟩
    · exact ⟨hr j, (ht j).1, (ht j).2⟩
  · exact optimize_coreR_congr
      (agrees_get_data_rows s rain1 temp1 rain2 temp2 0 s.communities)

theorem c8_witness :
    (∀ r ∈ pipeline c1Store (fun _ => 3) (fun _ => 30),
      r.Rainfall < 20 ∧ 25 ≤ r.Temperature ∧ r.Temperature < 35) ∧
    (pipeline c1Store (fun _ => 3) (fun _ => 30)).map coreR =
      (pipeline c1Store (fun _ => 7) (fun _ => 26)).map coreR :=
  c8_noise c1Store (fun _ => 3) (fun _ => 30) (fun _ => 7) (fun _ => 26)
    (fun _ => by norm_num) (fun _ => by norm_num)

end WaterAlloc
